import Mathlib

/-!
Verification of the session-manager and streaming behaviour of the
Claude Agent SDK HTTP API server (`src/claude_agent_sdk/api_server.py`).

The Python module is a thin HTTP gateway: a `SessionManager` holding two
insertion-ordered dictionaries (`sessions` and `session_options`), a
streaming responder that re-emits an upstream message sequence as SSE
frames, and endpoint handlers mapping outcomes to HTTP responses.

Embedding choices:
* A Python `dict` keyed by strings is an insertion-ordered association
  list `List (String × α)`; `dictGet`, `dictInsert`, `dictDelete` and
  `dictKeys` mirror `d[k]`, `d[k] = v`, `del d[k]` and `list(d.keys())`.
* An external `ClaudeSDKClient` is opaque; it is modelled by its
  observable behaviour: the result of `__aenter__` / `__aexit__`
  (success or a raised exception, as `Except String Unit`), the result
  of `query(prompt)`, and the message sequence produced by
  `receive_response()` — a finite list of (stringified) messages
  followed optionally by a raised exception.
* A raising upstream iterator is a pair `(msgs, err)`: it yields the
  messages in `msgs` in order and then, if `err = some e`, raises `e`.
* Exceptions propagate as `Except String`; the state at the moment of a
  raise is threaded explicitly, since the Python code mutates the
  dictionaries only at specific program points.
-/

namespace ApiServer

/-! Python dict as an insertion-ordered association list. -/

/-- Lookup, as in `d[k]` or `k in d` (dicts have unique keys, so first
match suffices). -/
def dictGet {α : Type} : List (String × α) → String → Option α
  | [], _ => none
  | p :: d, k => if p.1 = k then some p.2 else dictGet d k

/-- Assignment `d[k] = v`: replace in place if the key exists, else
append at the end (dicts preserve insertion order). -/
def dictInsert {α : Type} : List (String × α) → String → α → List (String × α)
  | [], k, v => [(k, v)]
  | p :: d, k, v => if p.1 = k then (k, v) :: d else p :: dictInsert d k v

/-- Deletion `del d[k]`: remove the (first) entry with the given key. -/
def dictDelete {α : Type} : List (String × α) → String → List (String × α)
  | [], _ => []
  | p :: d, k => if p.1 = k then d else p :: dictDelete d k

/-- Key listing, as in `list(d.keys())`. -/
def dictKeys {α : Type} (d : List (String × α)) : List String :=
  d.map Prod.fst

/-! Streaming responder.

The inner async generators of `query_claude` and `query_session` are
the same code: drain the upstream iterator, yielding one `message`
frame per upstream message; on normal exhaustion yield a `done` frame;
if the iterator raises, the `except` arm yields a single `error` frame
and the generator ends. -/

/-- One SSE frame, i.e. the JSON payload of one `data:` event. -/
inductive Frame : Type
  | message (content : String)
  | done
  | error (err : String)
deriving DecidableEq

/-- A frame is terminal when it is `done` or `error`. -/
def Frame.isTerminal : Frame → Bool
  | .message _ => false
  | .done => true
  | .error _ => true

/-- The single terminal frame the generator emits for a given upstream
outcome: `done` on exhaustion, `error e` when the iterator raised `e`. -/
def terminalFrame : Option String → Frame
  | none => Frame.done
  | some e => Frame.error e

/-- The inner `generate()` async generator: one `message` frame per
upstream message, then `done`; on a raise, the frames yielded so far
followed by one `error` frame. -/
def generate : List String → Option String → List Frame
  | m :: ms, err => Frame.message m :: generate ms err
  | [], none => [Frame.done]
  | [], some e => [Frame.error e]

/-- The buffered collection loop (`messages.append(str(message))` over
the upstream iterator): all messages on success, the raised exception
otherwise (the partially built local list is discarded by the raise). -/
def collectMessages : List String → Option String → Except String (List String)
  | [], none => Except.ok []
  | [], some e => Except.error e
  | m :: ms, err =>
    match collectMessages ms err with
    | Except.ok rest => Except.ok (m :: rest)
    | Except.error e => Except.error e

/-! The external client and the session manager.

A `ClaudeSDKClient` is an external collaborator; the server only
observes whether `__aenter__`, `__aexit__` and `query` succeed or
raise, and what `receive_response()` yields. Those observations are the
model. -/

/-- Creation options; the server passes them through without inspecting
them, so the payload is opaque key/value data. -/
structure ClaudeAgentOptions : Type where
  raw : List (String × String)
deriving DecidableEq

/-- Default options, as built by a no-argument construction. -/
def defaultOptions : ClaudeAgentOptions := ⟨[]⟩

/-- An Agent Client handle, modelled by its observable behaviour. -/
structure ClaudeSDKClient : Type where
  /-- Result of the open call (Python `await client.__aenter__()`). -/
  aenterResult : Except String Unit
  /-- Result of the close call (Python `await client.__aexit__(...)`). -/
  aexitResult : Except String Unit
  /-- Result of the send call (Python `await client.query(prompt)`). -/
  querySend : String → Except String Unit
  /-- Messages yielded by `client.receive_response()`, stringified. -/
  recvMsgs : List String
  /-- Exception raised by `receive_response()` after `recvMsgs`, if any. -/
  recvErr : Option String

/-- State of `SessionManager`: the two dictionaries built in
`SessionManager.__init__`. -/
structure SessionManager : Type where
  sessions : List (String × ClaudeSDKClient)
  session_options : List (String × ClaudeAgentOptions)

/-- The manager the module starts with: both dictionaries empty. -/
def initSessionManager : SessionManager := ⟨[], []⟩

/-- Embeds `SessionManager.create_session`. The fresh identifier
produced by `str(uuid.uuid4())` and the client constructed from the
options are external inputs, so they are parameters; `__aenter__`
raising propagates (as `Except.error`) before either dictionary is
touched. -/
def create_session (mgr : SessionManager) (freshId : String)
    (options : Option ClaudeAgentOptions) (client : ClaudeSDKClient) :
    SessionManager × Except String String :=
  let opts := options.getD defaultOptions
  match client.aenterResult with
  | Except.error e => (mgr, Except.error e)
  | Except.ok _ =>
    (⟨dictInsert mgr.sessions freshId client,
      dictInsert mgr.session_options freshId opts⟩,
     Except.ok freshId)

/-- Embeds `SessionManager.get_session`: pure lookup. -/
def get_session (mgr : SessionManager) (sid : String) : Option ClaudeSDKClient :=
  dictGet mgr.sessions sid

/-- Embeds `SessionManager.close_session`. The close call
(`await client.__aexit__`) runs before the two `del` statements, so if
the close raises the exception propagates and neither dictionary is
modified. -/
def close_session (mgr : SessionManager) (sid : String) :
    SessionManager × Except String Bool :=
  match dictGet mgr.sessions sid with
  | some client =>
    match client.aexitResult with
    | Except.error e => (mgr, Except.error e)
    | Except.ok _ =>
      (⟨dictDelete mgr.sessions sid,
        if sid ∈ dictKeys mgr.session_options then
          dictDelete mgr.session_options sid
        else mgr.session_options⟩,
       Except.ok true)
  | none => (mgr, Except.ok false)

/-- The loop of `close_all_sessions` over a snapshot of ids; a raise
from `close_session` propagates out of the `for` loop, leaving the
remaining ids unprocessed. -/
def close_all_go : SessionManager → List String → SessionManager × Except String Unit
  | mgr, [] => (mgr, Except.ok ())
  | mgr, sid :: rest =>
    match close_session mgr sid with
    | (mgr', Except.ok _) => close_all_go mgr' rest
    | (mgr', Except.error e) => (mgr', Except.error e)

/-- Embeds `SessionManager.close_all_sessions`: iterate a snapshot
(`list(self.sessions.keys())`) and close each id in turn. -/
def close_all_sessions (mgr : SessionManager) : SessionManager × Except String Unit :=
  close_all_go mgr (dictKeys mgr.sessions)

/-- Embeds `SessionManager.list_sessions`: `list(self.sessions.keys())`. -/
def list_sessions (mgr : SessionManager) : List String :=
  dictKeys mgr.sessions

/-! HTTP endpoint layer.

Handlers return their JSON body on success; an `HTTPException` (or an
exception left to the framework) becomes an error status with a string
detail. Streaming handlers return the full frame sequence the
`StreamingResponse` body will produce. -/

/-- Body of `GET /health`. -/
structure HealthBody : Type where
  status : String
  service : String
  active_sessions : Nat
deriving DecidableEq

/-- Embeds the `GET /health` handler: always HTTP 200, with the live
session count. -/
def health_check (mgr : SessionManager) : Nat × HealthBody :=
  (200, ⟨"healthy", "claude-agent-sdk-api", mgr.sessions.length⟩)

/-- Body of a successful buffered `POST /query`. -/
structure BufferedBody : Type where
  status : String
  messages : List String
deriving DecidableEq

/-- Outcome of `POST /query` (stateless). -/
inductive StatelessOutcome : Type
  | streamed (frames : List Frame)
  | json (body : BufferedBody)
  | httpError (status : Nat) (detail : String)
deriving DecidableEq

/-- Embeds the `POST /query` handler. The upstream `sdk_query` iterator
is modelled by the messages it yields plus an optional raised
exception. In streamed mode the generator handles a raise in-band; in
buffered mode the raise is caught by the handler's `except` and becomes
`HTTPException(500)`. -/
def query_claude (msgs : List String) (err : Option String) (stream : Bool) :
    StatelessOutcome :=
  if stream then
    StatelessOutcome.streamed (generate msgs err)
  else
    match collectMessages msgs err with
    | Except.ok ms => StatelessOutcome.json ⟨"success", ms⟩
    | Except.error e => StatelessOutcome.httpError 500 e

/-- Body of a successful buffered `POST /sessions/{id}/query`. -/
structure SessionBufferedBody : Type where
  status : String
  session_id : String
  messages : List String
deriving DecidableEq

/-- Outcome of `POST /sessions/{id}/query`. -/
inductive SessionQueryOutcome : Type
  | notFound
  | streamed (frames : List Frame)
  | json (body : SessionBufferedBody)
  | httpError (status : Nat) (detail : String)

/-- Embeds the `POST /sessions/{id}/query` handler: 404 when the id is
unknown; otherwise `await client.query(prompt)` runs inside the `try`
before any response body exists, so a raise there becomes
`HTTPException(500)` with no frame emitted; then either the streaming
generator or the buffered collection drains `receive_response()`. The
handler never mutates the manager, which is returned unchanged. -/
def query_session (mgr : SessionManager) (sid : String) (prompt : String)
    (stream : Bool) : SessionManager × SessionQueryOutcome :=
  match get_session mgr sid with
  | none => (mgr, SessionQueryOutcome.notFound)
  | some client =>
    match client.querySend prompt with
    | Except.error e => (mgr, SessionQueryOutcome.httpError 500 e)
    | Except.ok _ =>
      if stream then
        (mgr, SessionQueryOutcome.streamed (generate client.recvMsgs client.recvErr))
      else
        match collectMessages client.recvMsgs client.recvErr with
        | Except.ok ms => (mgr, SessionQueryOutcome.json ⟨"success", sid, ms⟩)
        | Except.error e => (mgr, SessionQueryOutcome.httpError 500 e)

/-- Outcome of `DELETE /sessions/{id}`. -/
inductive DeleteOutcome : Type
  | deleted (sid : String)
  | notFound
  | httpError (status : Nat) (detail : String)

/-- Embeds the `DELETE /sessions/{id}` handler: `close_session` decides
200 vs 404; the handler has no `try`, so a raise from the client's
close escapes to the framework (a 500) with no entry removed. -/
def delete_session (mgr : SessionManager) (sid : String) :
    SessionManager × DeleteOutcome :=
  match close_session mgr sid with
  | (mgr', Except.error e) => (mgr', DeleteOutcome.httpError 500 e)
  | (mgr', Except.ok true) => (mgr', DeleteOutcome.deleted sid)
  | (mgr', Except.ok false) => (mgr', DeleteOutcome.notFound)

/-- Body of `GET /sessions`. -/
structure SessionListBody : Type where
  sessions : List String
  count : Nat
deriving DecidableEq

/-- Embeds the `GET /sessions` handler. -/
def list_sessions_endpoint (mgr : SessionManager) : SessionListBody :=
  ⟨list_sessions mgr, mgr.sessions.length⟩

/-- The implicit invariant of the manager: the two dictionaries always
hold exactly the same keys. -/
def keysEqual (mgr : SessionManager) : Prop :=
  dictKeys mgr.sessions = dictKeys mgr.session_options

/-! Concrete clients and registries used to evaluate the theorems. -/

/-- A client whose open, send and close all succeed and whose response
stream yields two messages then ends. -/
def goodClient : ClaudeSDKClient :=
  ⟨Except.ok (), Except.ok (), fun _ => Except.ok (), ["m1", "m2"], none⟩

/-- A client that opens cleanly but whose close raises. -/
def badCloseClient : ClaudeSDKClient :=
  ⟨Except.ok (), Except.error "boom", fun _ => Except.ok (), [], none⟩

/-- A client whose send (`query`) raises. -/
def badSendClient : ClaudeSDKClient :=
  ⟨Except.ok (), Except.ok (), fun _ => Except.error "send failed", ["m1"], none⟩

/-- A client whose receive stream raises after one message. -/
def badRecvClient : ClaudeSDKClient :=
  ⟨Except.ok (), Except.ok (), fun _ => Except.ok (), ["m1"], some "recv failed"⟩

/-- A registry holding one healthy session. -/
def mgrGood : SessionManager := ⟨[("s", goodClient)], [("s", defaultOptions)]⟩

/-- A registry holding one session whose client's close raises. -/
def mgrBadClose : SessionManager := ⟨[("s", badCloseClient)], [("s", defaultOptions)]⟩

/-- A registry holding a failing-close session before a healthy one. -/
def mgrTwo : SessionManager :=
  ⟨[("a", badCloseClient), ("b", goodClient)],
   [("a", defaultOptions), ("b", defaultOptions)]⟩

/-- A registry holding one session whose client's send raises. -/
def mgrSendFail : SessionManager := ⟨[("s", badSendClient)], [("s", defaultOptions)]⟩

/-- A registry holding one session whose receive stream raises. -/
def mgrBadRecv : SessionManager := ⟨[("s", badRecvClient)], [("s", defaultOptions)]⟩

/-- Decidable equality for the exception-or-value results used by the
model, so that concrete outcomes can be checked by `decide`. -/
instance {ε α : Type} [DecidableEq ε] [DecidableEq α] : DecidableEq (Except ε α) :=
  fun a b =>
    match a, b with
    | Except.ok x, Except.ok y =>
      match decEq x y with
      | isTrue h => isTrue (by rw [h])
      | isFalse h => isFalse (fun hc => h (Except.ok.inj hc))
    | Except.error x, Except.error y =>
      match decEq x y with
      | isTrue h => isTrue (by rw [h])
      | isFalse h => isFalse (fun hc => h (Except.error.inj hc))
    | Except.ok _, Except.error _ => isFalse (fun hc => Except.noConfusion hc)
    | Except.error _, Except.ok _ => isFalse (fun hc => Except.noConfusion hc)

/-! Dictionary lemmas. -/

theorem dictGet_eq_none_iff {α : Type} (d : List (String × α)) (k : String) :
    dictGet d k = none ↔ k ∉ dictKeys d := by
  induction d with
  | nil => simp [dictGet, dictKeys]
  | cons p d ih =>
    by_cases h : p.1 = k
    · simp [dictGet, dictKeys, h]
    · simp [dictGet, dictKeys, h, ih, Ne.symm h]

theorem mem_dictKeys_of_dictGet_some {α : Type} {d : List (String × α)} {k : String}
    {v : α} (h : dictGet d k = some v) : k ∈ dictKeys d := by
  by_contra hk
  rw [← dictGet_eq_none_iff] at hk
  rw [h] at hk
  exact Option.noConfusion hk

theorem dictKeys_dictDelete {α : Type} (d : List (String × α)) (k : String) :
    dictKeys (dictDelete d k) = (dictKeys d).erase k := by
  induction d with
  | nil => simp [dictDelete, dictKeys]
  | cons p d ih =>
    simp only [dictKeys] at ih ⊢
    by_cases h : p.1 = k
    · simp [dictDelete, h, List.erase_cons_head]
    · have hbeq : (p.1 == k) = false := by simp [h]
      simp only [dictDelete, if_neg h, List.map_cons, List.erase_cons, hbeq,
        Bool.false_eq_true, if_false]
      exact congrArg (List.cons p.1) ih

theorem dictKeys_dictInsert {α : Type} (d : List (String × α)) (k : String) (v : α) :
    dictKeys (dictInsert d k v) =
      if k ∈ dictKeys d then dictKeys d else dictKeys d ++ [k] := by
  induction d with
  | nil => simp [dictInsert, dictKeys]
  | cons p d ih =>
    simp only [dictKeys] at ih ⊢
    by_cases h : p.1 = k
    · simp [dictInsert, h]
    · have hne : ¬(k = p.1) := fun hk => h hk.symm
      by_cases hm : k ∈ List.map Prod.fst d
      · simp [dictInsert, h, ih, hm, List.mem_cons, hne]
      · simp [dictInsert, h, ih, hm, List.mem_cons, hne]

theorem length_dictInsert_of_not_mem {α : Type} {d : List (String × α)} {k : String}
    (v : α) (h : k ∉ dictKeys d) : (dictInsert d k v).length = d.length + 1 := by
  induction d with
  | nil => simp [dictInsert]
  | cons p d ih =>
    simp only [dictKeys, List.map_cons, List.mem_cons] at h
    push_neg at h
    have hne : p.1 ≠ k := fun hk => h.1 hk.symm
    simp [dictInsert, hne, ih h.2]

theorem dictGet_dictDelete_self {α : Type} {d : List (String × α)} {k : String}
    (h : (dictKeys d).Nodup) : dictGet (dictDelete d k) k = none := by
  induction d with
  | nil => simp [dictDelete, dictGet]
  | cons p d ih =>
    simp only [dictKeys, List.map_cons, List.nodup_cons] at h
    by_cases hk : p.1 = k
    · simp only [dictDelete, if_pos hk]
      rw [dictGet_eq_none_iff]
      subst hk
      exact h.1
    · simp [dictDelete, dictGet, hk, ih h.2]

theorem eq_nil_of_dictKeys_eq_nil {α : Type} {d : List (String × α)}
    (h : dictKeys d = []) : d = [] := by
  cases d with
  | nil => rfl
  | cons p d => simp [dictKeys] at h

/-! Streaming lemmas. -/

theorem generate_eq (msgs : List String) (err : Option String) :
    generate msgs err = msgs.map Frame.message ++ [terminalFrame err] := by
  induction msgs with
  | nil => cases err <;> rfl
  | cons m ms ih => simp [generate, ih]

theorem map_message_filter_isTerminal (msgs : List String) :
    (msgs.map Frame.message).filter Frame.isTerminal = [] := by
  induction msgs with
  | nil => rfl
  | cons m ms ih => simp [List.filter, Frame.isTerminal, ih]

theorem isTerminal_terminalFrame (err : Option String) :
    Frame.isTerminal (terminalFrame err) = true := by
  cases err <;> rfl

theorem collectMessages_none (msgs : List String) :
    collectMessages msgs none = Except.ok msgs := by
  induction msgs with
  | nil => rfl
  | cons m ms ih => simp [collectMessages, ih]

theorem collectMessages_some (msgs : List String) (e : String) :
    collectMessages msgs (some e) = Except.error e := by
  induction msgs with
  | nil => rfl
  | cons m ms ih => simp [collectMessages, ih]

/-! Invariant-preservation lemmas. -/

theorem create_session_keysEqual (mgr : SessionManager) (freshId : String)
    (options : Option ClaudeAgentOptions) (client : ClaudeSDKClient)
    (h : keysEqual mgr) : keysEqual (create_session mgr freshId options client).1 := by
  unfold keysEqual at h ⊢
  cases hae : client.aenterResult with
  | error e => simp [create_session, hae, h]
  | ok u =>
    simp only [create_session, hae]
    simp only [dictKeys_dictInsert]
    rw [h]

theorem close_session_keysEqual (mgr : SessionManager) (sid : String)
    (h : keysEqual mgr) : keysEqual (close_session mgr sid).1 := by
  unfold keysEqual at h ⊢
  cases hg : dictGet mgr.sessions sid with
  | none => simp [close_session, hg, h]
  | some c =>
    cases hae : c.aexitResult with
    | error e => simp [close_session, hg, hae, h]
    | ok u =>
      have hmemS : sid ∈ dictKeys mgr.sessions := mem_dictKeys_of_dictGet_some hg
      have hmemO : sid ∈ dictKeys mgr.session_options := h ▸ hmemS
      simp only [close_session, hg, hae]
      rw [if_pos hmemO, dictKeys_dictDelete, dictKeys_dictDelete, h]

theorem close_all_go_keysEqual (ids : List String) :
    ∀ mgr : SessionManager, keysEqual mgr → keysEqual (close_all_go mgr ids).1 := by
  induction ids with
  | nil => intro mgr h; exact h
  | cons sid rest ih =>
    intro mgr h
    have hpres : keysEqual (close_session mgr sid).1 := close_session_keysEqual mgr sid h
    cases hc : close_session mgr sid with
    | mk mgr' r =>
      rw [hc] at hpres
      cases r with
      | ok b =>
        simp only [close_all_go, hc]
        exact ih mgr' hpres
      | error e =>
        simp only [close_all_go, hc]
        exact hpres

theorem close_all_go_ok (l : List (String × ClaudeSDKClient)) :
    ∀ o : List (String × ClaudeAgentOptions),
      (∀ p ∈ l, p.2.aexitResult = Except.ok ()) →
      dictKeys o = dictKeys l →
      close_all_go ⟨l, o⟩ (dictKeys l) = (⟨[], []⟩, Except.ok ()) := by
  induction l with
  | nil =>
    intro o _ hk
    have ho : o = [] := eq_nil_of_dictKeys_eq_nil (by simpa [dictKeys] using hk)
    subst ho
    rfl
  | cons p l ih =>
    intro o hok hk
    have hco : p.2.aexitResult = Except.ok () := hok p (List.mem_cons_self _ _)
    have hmem : p.1 ∈ dictKeys o := by
      rw [hk]
      simp [dictKeys]
    have hstep : close_session ⟨p :: l, o⟩ p.1
        = (⟨l, dictDelete o p.1⟩, Except.ok true) := by
      simp [close_session, dictGet, dictDelete, hco, hmem]
    have hkeys' : dictKeys (dictDelete o p.1) = dictKeys l := by
      rw [dictKeys_dictDelete, hk]
      simp [dictKeys, List.erase_cons_head]
    have hok' : ∀ q ∈ l, q.2.aexitResult = Except.ok () :=
      fun q hq => hok q (List.mem_cons_of_mem _ hq)
    have hks : dictKeys (p :: l) = p.1 :: dictKeys l := by simp [dictKeys]
    rw [hks]
    simp only [close_all_go, hstep]
    exact ih (dictDelete o p.1) hok' hkeys'

/-! Claim theorems. -/

/-- C1 (amended): for a session id present in the manager, if the
client's close completes cleanly then `close_session` returns `true`
and removes the entry from both dictionaries; but if the close raises,
the exception propagates and the entry is NOT removed (the manager is
returned unchanged). For an absent id it returns `false` and leaves the
manager unchanged. -/
theorem close_session_spec (mgr : SessionManager) (sid : String)
    (hnodupS : (dictKeys mgr.sessions).Nodup)
    (hnodupO : (dictKeys mgr.session_options).Nodup) :
    (∀ c, dictGet mgr.sessions sid = some c →
      (c.aexitResult = Except.ok () →
        (close_session mgr sid).2 = Except.ok true ∧
        dictGet (close_session mgr sid).1.sessions sid = none ∧
        sid ∉ dictKeys (close_session mgr sid).1.sessions ∧
        sid ∉ dictKeys (close_session mgr sid).1.session_options) ∧
      (∀ e, c.aexitResult = Except.error e →
        close_session mgr sid = (mgr, Except.error e))) ∧
    (dictGet mgr.sessions sid = none →
      close_session mgr sid = (mgr, Except.ok false)) := by
  constructor
  · intro c hc
    constructor
    · intro hok
      have hred : close_session mgr sid
          = (⟨dictDelete mgr.sessions sid,
              if sid ∈ dictKeys mgr.session_options then
                dictDelete mgr.session_options sid
              else mgr.session_options⟩,
             Except.ok true) := by
        simp [close_session, hc, hok]
      rw [hred]
      refine ⟨rfl, ?_, ?_, ?_⟩
      · show dictGet (dictDelete mgr.sessions sid) sid = none
        exact dictGet_dictDelete_self hnodupS
      · show sid ∉ dictKeys (dictDelete mgr.sessions sid)
        rw [dictKeys_dictDelete]
        exact hnodupS.not_mem_erase
      · show sid ∉ dictKeys (if sid ∈ dictKeys mgr.session_options then
            dictDelete mgr.session_options sid else mgr.session_options)
        by_cases hm : sid ∈ dictKeys mgr.session_options
        · rw [if_pos hm, dictKeys_dictDelete]
          exact hnodupO.not_mem_erase
        · rw [if_neg hm]
          exact hm
    · intro e he
      simp [close_session, hc, he]
  · intro hc
    simp [close_session, hc]

/-- C1 witness: on a healthy one-session registry, closing removes the
entry and returns `true`; closing an absent id returns `false`. -/
theorem close_session_spec_witness :
    (close_session mgrGood "s").2 = Except.ok true ∧
    "s" ∉ dictKeys (close_session mgrGood "s").1.sessions ∧
    close_session initSessionManager "absent" = (initSessionManager, Except.ok false) := by
  have h := close_session_spec mgrGood "s" (by decide) (by decide)
  have h2 := (h.1 goodClient rfl).1 rfl
  have h3 := (close_session_spec initSessionManager "absent"
    (by decide) (by decide)).2 rfl
  exact ⟨h2.1, h2.2.2.1, h3⟩

/-- C1 counterexample: a present session whose client's close raises.
The claim says `close` still removes the entry and returns `true`; in
fact the exception propagates, no boolean is returned, and the entry
stays in the dictionary. -/
theorem close_session_failing_close_cex :
    dictGet mgrBadClose.sessions "s" = some badCloseClient ∧
    close_session mgrBadClose "s" = (mgrBadClose, Except.error "boom") ∧
    dictKeys (close_session mgrBadClose "s").1.sessions = ["s"] ∧
    (Except.error "boom" : Except String Bool) ≠ Except.ok true :=
  ⟨rfl, rfl, rfl, by decide⟩

/-- C2 (amended): bulk teardown empties both dictionaries provided
every individual client close succeeds; when a close raises, the loop
aborts at that session and the exception propagates, so the failing
session and all not-yet-visited sessions remain in the registry. -/
theorem close_all_sessions_spec (mgr : SessionManager)
    (hok : ∀ p ∈ mgr.sessions, p.2.aexitResult = Except.ok ())
    (hkeys : dictKeys mgr.session_options = dictKeys mgr.sessions) :
    (close_all_sessions mgr).1.sessions = [] ∧
    (close_all_sessions mgr).1.session_options = [] ∧
    (close_all_sessions mgr).2 = Except.ok () := by
  obtain ⟨s, o⟩ := mgr
  have h := close_all_go_ok s o hok hkeys
  have hm : close_all_sessions ⟨s, o⟩ = (⟨[], []⟩, Except.ok ()) := h
  rw [hm]
  exact ⟨rfl, rfl, rfl⟩

/-- C2 witness: tearing down a registry with one healthy session leaves
both dictionaries empty. -/
theorem close_all_sessions_spec_witness :
    (close_all_sessions mgrGood).1.sessions = [] ∧
    (close_all_sessions mgrGood).1.session_options = [] := by
  have hok : ∀ p ∈ mgrGood.sessions, p.2.aexitResult = Except.ok () := by
    intro p hp
    have hps : p = ("s", goodClient) := by simpa [mgrGood] using hp
    rw [hps]
    rfl
  have h := close_all_sessions_spec mgrGood hok rfl
  exact ⟨h.1, h.2.1⟩

/-- C2 counterexample: two sessions where the first client's close
raises. The claim says the registry ends empty regardless; in fact the
loop aborts at the first failure, so both sessions — including the
healthy one that was never attempted — remain. -/
theorem close_all_sessions_failing_close_cex :
    (close_all_sessions mgrTwo).2 = Except.error "boom" ∧
    dictKeys (close_all_sessions mgrTwo).1.sessions = ["a", "b"] ∧
    (["a", "b"] : List String) ≠ [] :=
  ⟨rfl, rfl, by decide⟩

/-- C3: for every upstream sequence (messages yielded, then an optional
raise) the streamed responder emits one `message` frame per upstream
message in order, followed by exactly one terminal frame — `done` on
exhaustion, `error` on a raise — and emits no frame after it. -/
theorem stream_frame_protocol (msgs : List String) (err : Option String) :
    (generate msgs err).take msgs.length = msgs.map Frame.message ∧
    (generate msgs err).drop msgs.length = [terminalFrame err] ∧
    (generate msgs err).length = msgs.length + 1 ∧
    ((generate msgs err).filter Frame.isTerminal).length = 1 := by
  have hlen : (msgs.map Frame.message).length = msgs.length := List.length_map _ _
  refine ⟨?_, ?_, ?_, ?_⟩
  · rw [generate_eq, ← hlen, List.take_left]
  · rw [generate_eq, ← hlen, List.drop_left]
  · rw [generate_eq]
    simp
  · rw [generate_eq, List.filter_append, map_message_filter_isTerminal]
    simp [List.filter, isTerminal_terminalFrame]

/-- C4: a buffered (`stream:false`) query on a working upstream returns
a success body with one stringified entry per upstream message in
order, both statelessly and in a session; if the upstream raises before
exhaustion the whole request fails with HTTP 500 and no partial message
list is returned. -/
theorem buffered_query_spec (msgs : List String) (e : String)
    (mgr : SessionManager) (sid : String) (prompt : String)
    (client : ClaudeSDKClient)
    (hget : get_session mgr sid = some client)
    (hsend : client.querySend prompt = Except.ok ()) :
    query_claude msgs none false = StatelessOutcome.json ⟨"success", msgs⟩ ∧
    query_claude msgs (some e) false = StatelessOutcome.httpError 500 e ∧
    (client.recvErr = none →
      query_session mgr sid prompt false
        = (mgr, SessionQueryOutcome.json ⟨"success", sid, client.recvMsgs⟩)) ∧
    (∀ e2, client.recvErr = some e2 →
      query_session mgr sid prompt false
        = (mgr, SessionQueryOutcome.httpError 500 e2)) := by
  refine ⟨?_, ?_, ?_, ?_⟩
  · simp [query_claude, collectMessages_none]
  · simp [query_claude, collectMessages_some]
  · intro hre
    simp [query_session, hget, hsend, hre, collectMessages_none]
  · intro e2 hre
    simp [query_session, hget, hsend, hre, collectMessages_some]

/-- C4 witness: concrete buffered queries — a healthy session returns
its two messages in order; a raising upstream yields a 500. -/
theorem buffered_query_spec_witness :
    query_claude ["m1", "m2"] none false
      = StatelessOutcome.json ⟨"success", ["m1", "m2"]⟩ ∧
    query_claude ["m1"] (some "upstream broke") false
      = StatelessOutcome.httpError 500 "upstream broke" ∧
    query_session mgrGood "s" "hi" false
      = (mgrGood, SessionQueryOutcome.json ⟨"success", "s", ["m1", "m2"]⟩) ∧
    query_session mgrBadRecv "s" "hi" false
      = (mgrBadRecv, SessionQueryOutcome.httpError 500 "recv failed") := by
  have h := buffered_query_spec ["m1", "m2"] "upstream broke" mgrGood "s" "hi"
    goodClient rfl rfl
  have h2 := buffered_query_spec ["m1"] "upstream broke" mgrBadRecv "s" "hi"
    badRecvClient rfl rfl
  exact ⟨h.1, h2.2.1, h.2.2.1 rfl, h2.2.2.2 "recv failed" rfl⟩

/-- C5: a successful session creation returns the freshly generated
identifier; under the uuid4 freshness assumption (the generated id is
non-empty, not a live key and never previously returned) the returned
id is non-empty and new, a subsequent listing contains it, and the
session count grows by exactly one. -/
theorem create_session_spec (mgr : SessionManager) (freshId : String)
    (options : Option ClaudeAgentOptions) (client : ClaudeSDKClient)
    (prevIds : List String)
    (hfresh : freshId ∉ dictKeys mgr.sessions)
    (hprev : freshId ∉ prevIds)
    (hne : freshId ≠ "")
    (hopen : client.aenterResult = Except.ok ()) :
    (create_session mgr freshId options client).2 = Except.ok freshId ∧
    freshId ≠ "" ∧
    freshId ∉ prevIds ∧
    freshId ∈ list_sessions (create_session mgr freshId options client).1 ∧
    (create_session mgr freshId options client).1.sessions.length
      = mgr.sessions.length + 1 := by
  have hc : create_session mgr freshId options client
      = (⟨dictInsert mgr.sessions freshId client,
          dictInsert mgr.session_options freshId (options.getD defaultOptions)⟩,
         Except.ok freshId) := by
    simp [create_session, hopen]
  rw [hc]
  refine ⟨rfl, hne, hprev, ?_, ?_⟩
  · show freshId ∈ dictKeys (dictInsert mgr.sessions freshId client)
    rw [dictKeys_dictInsert, if_neg hfresh]
    simp
  · show (dictInsert mgr.sessions freshId client).length = mgr.sessions.length + 1
    exact length_dictInsert_of_not_mem client hfresh

/-- C5 witness: creating a session with a fresh id in the empty
registry returns that id, lists it, and brings the count from 0 to 1. -/
theorem create_session_spec_witness :
    (create_session initSessionManager "id-1" none goodClient).2 = Except.ok "id-1" ∧
    "id-1" ∈ list_sessions (create_session initSessionManager "id-1" none goodClient).1 ∧
    (create_session initSessionManager "id-1" none goodClient).1.sessions.length
      = initSessionManager.sessions.length + 1 := by
  have h := create_session_spec initSessionManager "id-1" none goodClient []
    (by decide) (by decide) (by decide) rfl
  exact ⟨h.1, h.2.2.2.1, h.2.2.2.2⟩

/-- C6 (amended): deleting a present id whose client closes cleanly
returns success and removes the id from the listing and from `list()`;
an immediate second delete of the same id returns 404. (When the
client's close raises, the delete instead fails with a 500 and the
entry remains — see the counterexample.) -/
theorem delete_session_spec (mgr : SessionManager) (sid : String) (c : ClaudeSDKClient)
    (hnodupS : (dictKeys mgr.sessions).Nodup)
    (hget : dictGet mgr.sessions sid = some c)
    (hclose : c.aexitResult = Except.ok ()) :
    (delete_session mgr sid).2 = DeleteOutcome.deleted sid ∧
    sid ∉ list_sessions (delete_session mgr sid).1 ∧
    dictGet (delete_session mgr sid).1.sessions sid = none ∧
    delete_session (delete_session mgr sid).1 sid
      = ((delete_session mgr sid).1, DeleteOutcome.notFound) := by
  have hclose_red : close_session mgr sid
      = (⟨dictDelete mgr.sessions sid,
          if sid ∈ dictKeys mgr.session_options then
            dictDelete mgr.session_options sid
          else mgr.session_options⟩,
         Except.ok true) := by
    simp [close_session, hget, hclose]
  have hget2 : dictGet (dictDelete mgr.sessions sid) sid = none :=
    dictGet_dictDelete_self hnodupS
  have hdel : delete_session mgr sid
      = (⟨dictDelete mgr.sessions sid,
          if sid ∈ dictKeys mgr.session_options then
            dictDelete mgr.session_options sid
          else mgr.session_options⟩,
         DeleteOutcome.deleted sid) := by
    simp [delete_session, hclose_red]
  rw [hdel]
  refine ⟨rfl, ?_, ?_, ?_⟩
  · show sid ∉ dictKeys (dictDelete mgr.sessions sid)
    rw [dictKeys_dictDelete]
    exact hnodupS.not_mem_erase
  · exact hget2
  · simp [delete_session, close_session, hget2]

/-- C6 witness: deleting the only session of a healthy registry
succeeds, the listing no longer contains it, and a second delete
returns 404. -/
theorem delete_session_spec_witness :
    (delete_session mgrGood "s").2 = DeleteOutcome.deleted "s" ∧
    "s" ∉ list_sessions (delete_session mgrGood "s").1 ∧
    delete_session (delete_session mgrGood "s").1 "s"
      = ((delete_session mgrGood "s").1, DeleteOutcome.notFound) := by
  have h := delete_session_spec mgrGood "s" goodClient (by decide) rfl rfl
  exact ⟨h.1, h.2.1, h.2.2.2⟩

/-- C6 counterexample: deleting a present session whose client's close
raises does not return success — the exception escapes the handler (a
500) — and the id remains in the registry. -/
theorem delete_session_failing_close_cex :
    dictGet mgrBadClose.sessions "s" = some badCloseClient ∧
    delete_session mgrBadClose "s" = (mgrBadClose, DeleteOutcome.httpError 500 "boom") ∧
    dictKeys (delete_session mgrBadClose "s").1.sessions = ["s"] :=
  ⟨rfl, rfl, rfl⟩

/-- C7: querying an unknown session id returns 404 and the manager is
returned unchanged — no entry is added, removed or modified. -/
theorem query_unknown_session_spec (mgr : SessionManager) (sid : String)
    (prompt : String) (stream : Bool)
    (h : get_session mgr sid = none) :
    query_session mgr sid prompt stream = (mgr, SessionQueryOutcome.notFound) := by
  simp [query_session, h]

/-- C7 witness: querying `nonexistent-id` on the empty registry yields
404 with the registry untouched. -/
theorem query_unknown_session_spec_witness :
    get_session initSessionManager "nonexistent-id" = none ∧
    query_session initSessionManager "nonexistent-id" "Hello" false
      = (initSessionManager, SessionQueryOutcome.notFound) :=
  ⟨rfl, query_unknown_session_spec initSessionManager "nonexistent-id" "Hello" false rfl⟩

/-- C8: the health check always answers HTTP 200 with status
`healthy` and an `active_sessions` count (a natural number, hence
non-negative) equal to the number of live sessions. -/
theorem health_check_spec (mgr : SessionManager) :
    (health_check mgr).1 = 200 ∧
    (health_check mgr).2.active_sessions = mgr.sessions.length ∧
    0 ≤ (health_check mgr).2.active_sessions ∧
    (health_check mgr).2.status = "healthy" :=
  ⟨rfl, rfl, Nat.zero_le _, rfl⟩

/-- C9: the two dictionaries of the manager always hold the same keys:
the initial state satisfies the invariant and every operation
(`create_session`, `close_session`, `close_all_sessions`) preserves it,
including the paths where a client close raises mid-way. -/
theorem keys_invariant_spec :
    keysEqual initSessionManager ∧
    ∀ mgr : SessionManager, keysEqual mgr →
      (∀ freshId options client,
        keysEqual (create_session mgr freshId options client).1) ∧
      (∀ sid, keysEqual (close_session mgr sid).1) ∧
      keysEqual (close_all_sessions mgr).1 := by
  refine ⟨rfl, fun mgr h => ⟨?_, ?_, ?_⟩⟩
  · intro freshId options client
    exact create_session_keysEqual mgr freshId options client h
  · intro sid
    exact close_session_keysEqual mgr sid h
  · exact close_all_go_keysEqual (dictKeys mgr.sessions) mgr h

/-- C9 witness: the invariant holds after closing the session of a
healthy registry and after a bulk teardown that aborts on a failing
close. -/
theorem keys_invariant_spec_witness :
    keysEqual (close_session mgrGood "s").1 ∧
    keysEqual (close_all_sessions mgrTwo).1 :=
  ⟨(keys_invariant_spec.2 mgrGood rfl).2.1 "s",
   (keys_invariant_spec.2 mgrTwo rfl).2.2⟩

/-- C10: in a streamed session query, the prompt is sent before any
response body exists; if the send raises, the handler returns a
pre-body HTTP 500 and no SSE frame is produced (the outcome is not a
stream at all). -/
theorem send_failure_pre_body_spec (mgr : SessionManager) (sid : String)
    (prompt : String) (client : ClaudeSDKClient) (e : String)
    (hget : get_session mgr sid = some client)
    (hsend : client.querySend prompt = Except.error e) :
    query_session mgr sid prompt true = (mgr, SessionQueryOutcome.httpError 500 e) ∧
    ∀ frames, (query_session mgr sid prompt true).2
      ≠ SessionQueryOutcome.streamed frames := by
  have h : query_session mgr sid prompt true
      = (mgr, SessionQueryOutcome.httpError 500 e) := by
    simp [query_session, hget, hsend]
  refine ⟨h, ?_⟩
  intro frames heq
  rw [h] at heq
  exact SessionQueryOutcome.noConfusion heq

/-- C10 witness: a session whose client's send raises produces a 500
outcome and no frames. -/
theorem send_failure_pre_body_spec_witness :
    query_session mgrSendFail "s" "hi" true
      = (mgrSendFail, SessionQueryOutcome.httpError 500 "send failed") :=
  (send_failure_pre_body_spec mgrSendFail "s" "hi" badSendClient "send failed" rfl rfl).1

end ApiServer
